import Mathlib

/-!
Shallow embedding of the NexusZero kiosk dashboard core (src/main.py):
the SkyblockTimers pure time-conversion engine, the MopidyWorker
connect/poll/command logic, and the MoonrakerWorker normalization.
Real-world timestamps and all float quantities are modelled as rationals;
Python float floor-division and modulo become Int.floor-based operations,
and Python int floor-division and modulo on integers become Int.fdiv and
Int.fmod.
-/

namespace NexusZero

/-- Configuration constant `SB_EPOCH_MS` (ms since Unix epoch). -/
def SB_EPOCH_MS : ℚ := 1560275700000

/-- Configuration constant `SB_REAL_MIN_PER_DAY`: 20 real minutes = 1 SB day. -/
def SB_REAL_MIN_PER_DAY : ℚ := 20

/-- Configuration constant `SB_DAYS_PER_MONTH`. -/
def SB_DAYS_PER_MONTH : ℤ := 31

/-- Configuration constant `SB_HOURS_PER_DAY`. -/
def SB_HOURS_PER_DAY : ℚ := 24

/-- Configuration constant `FREE_WILL_CYCLE_HRS`. -/
def FREE_WILL_CYCLE_HRS : ℚ := 96

/-- `SkyblockTimers.REAL_SEC_PER_SB_DAY = SB_REAL_MIN_PER_DAY * 60` (1200 s). -/
def REAL_SEC_PER_SB_DAY : ℚ := SB_REAL_MIN_PER_DAY * 60

/-- `SkyblockTimers.REAL_SEC_PER_SB_MONTH = REAL_SEC_PER_SB_DAY * SB_DAYS_PER_MONTH` (37200 s). -/
def REAL_SEC_PER_SB_MONTH : ℚ := REAL_SEC_PER_SB_DAY * (SB_DAYS_PER_MONTH : ℚ)

/-- `SkyblockTimers.SB_SEC_PER_SB_DAY = SB_HOURS_PER_DAY * 3600` (86400 SB-sec). -/
def SB_SEC_PER_SB_DAY : ℚ := SB_HOURS_PER_DAY * 3600

/-- Python float `x % y`: `x - y * floor (x / y)` (sign follows the divisor). -/
def pymod (x y : ℚ) : ℚ := x - y * (⌊x / y⌋ : ℤ)

/-- The dict returned by `SkyblockTimers.real_to_sb`. -/
structure SbMoment where
  month : ℤ
  day : ℤ
  hour : ℤ
  min : ℤ
  sb_seconds_elapsed : ℚ
  sb_time_of_day : ℚ
  real_elapsed : ℚ
deriving Repr, DecidableEq

/-- `SkyblockTimers.real_to_sb`: convert real Unix seconds to a Skyblock
date/time, clamping instants before the epoch to elapsed time 0. -/
def real_to_sb (real_epoch_s : ℚ) : SbMoment :=
  let elapsed_real0 := real_epoch_s - SB_EPOCH_MS / 1000
  let elapsed_real := if elapsed_real0 < 0 then 0 else elapsed_real0
  let sb_seconds_elapsed := elapsed_real * SB_SEC_PER_SB_DAY / REAL_SEC_PER_SB_DAY
  let sb_total_days : ℤ := ⌊sb_seconds_elapsed / SB_SEC_PER_SB_DAY⌋
  let sb_time_of_day := pymod sb_seconds_elapsed SB_SEC_PER_SB_DAY
  { month := Int.fdiv sb_total_days SB_DAYS_PER_MONTH + 1
    day := Int.fmod sb_total_days SB_DAYS_PER_MONTH + 1
    hour := ⌊sb_time_of_day / 3600⌋
    min := ⌊pymod sb_time_of_day 3600 / 60⌋
    sb_seconds_elapsed := sb_seconds_elapsed
    sb_time_of_day := sb_time_of_day
    real_elapsed := elapsed_real }

/-- The `event_days` list of `next_cult_event` (0-indexed cult days). -/
def event_days : List ℤ := [6, 13, 20, 27]

/-- The local `real_in_month` of `next_cult_event`: current position within
one SB-month, in real seconds. -/
def real_in_month (t : ℚ) : ℚ :=
  pymod (real_to_sb t).real_elapsed REAL_SEC_PER_SB_MONTH

/-- The `for d in event_days` loop of `next_cult_event`: smallest gap
`d * real_per_day - real_in_month` over days whose start lies strictly
after `real_in_month`, as an `Option` (`none` = Python `best is None`). -/
def cultBest (rim : ℚ) : Option ℚ :=
  event_days.foldl (fun best d =>
    let day_start : ℚ := (d : ℚ) * REAL_SEC_PER_SB_DAY
    if day_start > rim then
      let gap := day_start - rim
      match best with
      | none => some gap
      | some b => if gap < b then some gap else some b
    else best) none

/-- `SkyblockTimers.next_cult_event`: real seconds until the next cult day
00:00 window, wrapping to the first cult day of the next month when no cult
day remains in the current one. -/
def next_cult_event (real_now_s : ℚ) : ℚ :=
  let rim := real_in_month real_now_s
  match cultBest rim with
  | some g => g
  | none => REAL_SEC_PER_SB_MONTH - rim + (6 : ℚ) * REAL_SEC_PER_SB_DAY

/-- `SkyblockTimers.free_will_remaining`: remaining seconds in the current
anchor-relative cycle of `FREE_WILL_CYCLE_HRS` hours. -/
def free_will_remaining (real_now_s anchor_s : ℚ) : ℚ :=
  let cycle_s := FREE_WILL_CYCLE_HRS * 3600
  let elapsed := pymod (real_now_s - anchor_s) cycle_s
  cycle_s - elapsed

/-- The raw MPD `status()` response fields the worker reads; `none` models an
absent key. String-encoded numerics are modelled by their numeric value. -/
structure MpdStatus where
  state : Option String
  duration : Option ℚ
  elapsed : Option ℚ
  random : Option String
  repeatFlag : Option String
deriving DecidableEq

/-- The raw MPD `currentsong()` response fields the worker reads. -/
structure MpdSong where
  title : Option String
  artist : Option String
  album : Option String
deriving DecidableEq

/-- The normalized track record built by `MopidyWorker._poll`. -/
structure Track where
  title : String
  artist : String
  album : String
  duration : ℚ
  elapsed : ℚ
  state : String
  shuffle : Bool
  repeatFlag : Bool
deriving DecidableEq

/-- The `track` dict construction inside `MopidyWorker._poll` (lines 264-273):
defaults for absent keys, and `"1"`-string decoding of shuffle/repeat. -/
def normalizeTrack (status : MpdStatus) (song : MpdSong) : Track :=
  { title := song.title.getD ("Unknown")
    artist := song.artist.getD ("Unknown")
    album := song.album.getD ("")
    duration := status.duration.getD 0
    elapsed := status.elapsed.getD 0
    state := status.state.getD ("stop")
    shuffle := status.random.getD ("0") == "1"
    repeatFlag := status.repeatFlag.getD ("0") == "1" }

/-- The `MOCK_TRACK` fallback record. -/
def MOCK_TRACK : Track :=
  { title := "Mock Song – Connect Mopidy"
    artist := "Unknown Artist"
    album := "Unknown Album"
    duration := 210
    elapsed := 0
    state := "stop"
    shuffle := false
    repeatFlag := false }

/-- The `MOCK_PLAYLISTS` fallback playlist names. -/
def MOCK_PLAYLISTS : List String :=
  ["🎵 Chill Vibes", "🔥 Workout Beats", "🌙 Late Night Lo-Fi",
   "🎸 Rock Classics", "🎹 Piano Sessions", "🌿 Nature Sounds",
   "🚀 Synthwave Drive"]

/-- One signal emission of `MopidyWorker` (`track_updated` / `playlists_updated`). -/
inductive Emission where
  | trackMsg (t : Track)
  | playlistsMsg (ps : List String)
deriving DecidableEq

/-- Outcome of the three backend queries issued by `MopidyWorker._poll`:
either all succeed with the given raw payloads, or some call raises. -/
inductive MpdPollResult where
  | ok (status : MpdStatus) (song : MpdSong) (playlists : List String)
  | err
deriving DecidableEq

/-- Outcome of the connection attempt in `MopidyWorker._try_connect`;
`failure` also models `MPD_AVAILABLE = False` (both emit the mocks and leave
the worker disconnected). -/
inductive ConnectOutcome where
  | success
  | failure
deriving DecidableEq

/-- `MopidyWorker._poll` as a function of the backend outcome: returns the
new `_connected` flag and the emissions of this call. On `err` the except
branch runs: the partial result is dropped and `_connected` is set `False`. -/
def mopidyPoll : MpdPollResult → Bool × List Emission
  | .ok st sg pls => (true, [.trackMsg (normalizeTrack st sg), .playlistsMsg pls])
  | .err => (false, [])

/-- `MopidyWorker._try_connect`: on failure (or missing mpd library) emit
`MOCK_TRACK` and `MOCK_PLAYLISTS` and stay disconnected; on success set
`_connected = True` and emit nothing. -/
def mopidyTryConnect : ConnectOutcome → Bool × List Emission
  | .success => (true, [])
  | .failure => (false, [.trackMsg MOCK_TRACK, .playlistsMsg MOCK_PLAYLISTS])

/-- One iteration of the `MopidyWorker.run` loop body: connect if not
connected, then poll if (now) connected. Returns the new `_connected` flag
and everything emitted during the tick. -/
def mopidyTick (connected : Bool) (c : ConnectOutcome) (r : MpdPollResult) :
    Bool × List Emission :=
  let s1 := if connected then (true, ([] : List Emission)) else mopidyTryConnect c
  if s1.1 then
    let s2 := mopidyPoll r
    (s2.1, s1.2 ++ s2.2)
  else s1

/-- Several consecutive iterations of the `MopidyWorker.run` loop, given the
per-tick backend outcomes; collects all emissions in order. -/
def mopidyTicks (connected : Bool) :
    List (ConnectOutcome × MpdPollResult) → Bool × List Emission
  | [] => (connected, [])
  | o :: rest =>
    let s1 := mopidyTick connected o.1 o.2
    let s2 := mopidyTicks s1.1 rest
    (s2.1, s1.2 ++ s2.2)

/-- The commands accepted by `MopidyWorker._safe_cmd`. -/
inductive MpdCmd where
  | play_pause
  | nextTrack
  | prevTrack
  | randomCmd (b : Bool)
  | repeatCmd (b : Bool)
  | load_playlist (name : String)
deriving DecidableEq

/-- A request sent to the MPD backend by `_safe_cmd`. -/
inductive MpdReq where
  | statusReq
  | pauseReq
  | playReq
  | nextReq
  | previousReq
  | randomReq (v : ℤ)
  | repeatReq (v : ℤ)
  | clearReq
  | loadReq (name : String)
deriving DecidableEq

/-- Backend behaviour during a connected `_safe_cmd`: every call succeeds
(`play_pause` sees the given `status()` payload), or some call raises. -/
inductive CmdOutcome where
  | ok (status : MpdStatus)
  | raise
deriving DecidableEq

/-- The backend requests issued by the `try` body of `_safe_cmd` when every
call succeeds. -/
def cmdReqs : MpdCmd → MpdStatus → List MpdReq
  | .play_pause, st =>
      if st.state == some ("play") then [.statusReq, .pauseReq]
      else [.statusReq, .playReq]
  | .nextTrack, _ => [.nextReq]
  | .prevTrack, _ => [.previousReq]
  | .randomCmd b, _ => [.randomReq (if b then 1 else 0)]
  | .repeatCmd b, _ => [.repeatReq (if b then 1 else 0)]
  | .load_playlist name, _ => [.clearReq, .loadReq name, .playReq]

/-- `MopidyWorker._safe_cmd`: returns the new `_connected` flag and the
requests issued. If disconnected it returns immediately; if any call raises,
the partial effect is dropped and `_connected` is set `False`. -/
def safeCmd (connected : Bool) (cmd : MpdCmd) (out : CmdOutcome) :
    Bool × List MpdReq :=
  if connected then
    match out with
    | .ok st => (connected, cmdReqs cmd st)
    | .raise => (false, [])
  else (connected, [])

/-- A `_safe_cmd` call followed by one `run`-loop tick: used to relate a
command issued while disconnected to the next published record. -/
def cmdThenTick (connected : Bool) (cmd : MpdCmd) (out : CmdOutcome)
    (c : ConnectOutcome) (r : MpdPollResult) : Bool × List Emission :=
  let s := safeCmd connected cmd out
  mopidyTick s.1 c r

/-- The `print_stats` sub-object fields the printer worker reads. -/
structure PrintStats where
  state : Option String
  progress : Option ℚ
deriving DecidableEq

/-- An `extruder` / `heater_bed` sub-object. -/
structure HeaterData where
  temperature : Option ℚ
  target : Option ℚ
deriving DecidableEq

/-- The `result.status` envelope of a Moonraker query; `none` models an
absent sub-object. -/
structure MoonrakerStatus where
  print_stats : Option PrintStats
  extruder : Option HeaterData
  heater_bed : Option HeaterData
deriving DecidableEq

/-- The normalized printer record. -/
structure PrinterRecord where
  state : String
  progress : ℚ
  hotend_temp : ℚ
  hotend_target : ℚ
  bed_temp : ℚ
  bed_target : ℚ
deriving DecidableEq

/-- The empty mapping `{}` substituted by `data.get("print_stats", {})`. -/
def emptyPrintStats : PrintStats := ⟨none, none⟩

/-- The empty mapping `{}` substituted for an absent `extruder`/`heater_bed`. -/
def emptyHeater : HeaterData := ⟨none, none⟩

/-- The `result` dict construction in `MoonrakerWorker._poll` (lines 317-327):
absent sub-objects become empty mappings, then each field is defaulted. -/
def normalizePrinter (data : MoonrakerStatus) : PrinterRecord :=
  let stats := data.print_stats.getD emptyPrintStats
  let ext := data.extruder.getD emptyHeater
  let bed := data.heater_bed.getD emptyHeater
  { state := stats.state.getD ("standby")
    progress := stats.progress.getD 0
    hotend_temp := ext.temperature.getD 0
    hotend_target := ext.target.getD 0
    bed_temp := bed.temperature.getD 0
    bed_target := bed.target.getD 0 }

/-- The `MOCK_PRINTER` fallback record. -/
def MOCK_PRINTER : PrinterRecord :=
  { state := "standby"
    progress := 0
    hotend_temp := 0
    hotend_target := 0
    bed_temp := 0
    bed_target := 0 }

/-- Outcome of the HTTP query of `MoonrakerWorker._poll`; `err` covers a
network error, a bad HTTP status, a malformed JSON envelope, and the
`REQUESTS_AVAILABLE = False` path (all emit `MOCK_PRINTER`). -/
inductive MoonrakerPollResult where
  | ok (data : MoonrakerStatus)
  | err
deriving DecidableEq

/-- `MoonrakerWorker._poll`: one record is emitted on every tick — the
normalized payload on success, `MOCK_PRINTER` on any failure. -/
def moonrakerPoll : MoonrakerPollResult → PrinterRecord
  | .ok data => normalizePrinter data
  | .err => MOCK_PRINTER

/-- Consecutive iterations of the `MoonrakerWorker.run` loop: one emission
per tick. -/
def moonrakerTicks (rs : List MoonrakerPollResult) : List PrinterRecord :=
  rs.map moonrakerPoll

/-- The `_connected` flag observed before each tick and after the last one,
along a run of the `MopidyWorker.run` loop. -/
def mopidyStates (connected : Bool) :
    List (ConnectOutcome × MpdPollResult) → List Bool
  | [] => [connected]
  | o :: rest => connected :: mopidyStates (mopidyTick connected o.1 o.2).1 rest

/-- The clamped `elapsed_real` local of `real_to_sb` (proof-side shorthand:
`SB_EPOCH_MS / 1000 = 1560275700`). -/
def clampedElapsed (t : ℚ) : ℚ :=
  if t - 1560275700 < 0 then 0 else t - 1560275700

/-!  Helper lemmas.  -/

lemma pymod_nonneg (x : ℚ) {y : ℚ} (hy : 0 < y) : 0 ≤ pymod x y := by
  have h1 : ((⌊x / y⌋ : ℤ) : ℚ) ≤ x / y := Int.floor_le _
  have h2 : ((⌊x / y⌋ : ℤ) : ℚ) * y ≤ x / y * y :=
    mul_le_mul_of_nonneg_right h1 hy.le
  rw [div_mul_cancel₀ _ hy.ne'] at h2
  unfold pymod
  linarith

lemma pymod_lt (x : ℚ) {y : ℚ} (hy : 0 < y) : pymod x y < y := by
  have h1 : x / y < ((⌊x / y⌋ : ℤ) : ℚ) + 1 := Int.lt_floor_add_one _
  have h2 : x / y * y < (((⌊x / y⌋ : ℤ) : ℚ) + 1) * y :=
    mul_lt_mul_of_pos_right h1 hy
  rw [div_mul_cancel₀ _ hy.ne'] at h2
  unfold pymod
  nlinarith

lemma pymod_nat_mul (n : ℕ) {y : ℚ} (hy : y ≠ 0) : pymod ((n : ℚ) * y) y = 0 := by
  unfold pymod
  rw [mul_div_cancel_right₀ _ hy, Int.floor_natCast]
  push_cast
  ring

lemma REAL_SEC_PER_SB_DAY_eq : REAL_SEC_PER_SB_DAY = 1200 := by
  norm_num [REAL_SEC_PER_SB_DAY, SB_REAL_MIN_PER_DAY]

lemma REAL_SEC_PER_SB_MONTH_eq : REAL_SEC_PER_SB_MONTH = 37200 := by
  norm_num [REAL_SEC_PER_SB_MONTH, REAL_SEC_PER_SB_DAY, SB_REAL_MIN_PER_DAY,
    SB_DAYS_PER_MONTH]

lemma clampedElapsed_nonneg (t : ℚ) : 0 ≤ clampedElapsed t := by
  unfold clampedElapsed
  split
  · exact le_refl 0
  · next h => push_neg at h; linarith

lemma real_to_sb_fields (t : ℚ) :
    real_to_sb t =
      { month := (⌊clampedElapsed t * 86400 / 1200 / 86400⌋).fdiv 31 + 1
        day := (⌊clampedElapsed t * 86400 / 1200 / 86400⌋).fmod 31 + 1
        hour := ⌊pymod (clampedElapsed t * 86400 / 1200) 86400 / 3600⌋
        min := ⌊pymod (pymod (clampedElapsed t * 86400 / 1200) 86400) 3600 / 60⌋
        sb_seconds_elapsed := clampedElapsed t * 86400 / 1200
        sb_time_of_day := pymod (clampedElapsed t * 86400 / 1200) 86400
        real_elapsed := clampedElapsed t } := by
  unfold real_to_sb clampedElapsed SB_EPOCH_MS SB_SEC_PER_SB_DAY REAL_SEC_PER_SB_DAY
    SB_REAL_MIN_PER_DAY SB_HOURS_PER_DAY SB_DAYS_PER_MONTH
  norm_num

lemma cultBest_eval (rim : ℚ) :
    cultBest rim =
      if rim < 7200 then some (7200 - rim)
      else if rim < 15600 then some (15600 - rim)
      else if rim < 24000 then some (24000 - rim)
      else if rim < 32400 then some (32400 - rim)
      else none := by
  unfold cultBest event_days
  simp only [List.foldl_cons, List.foldl_nil, REAL_SEC_PER_SB_DAY_eq]
  norm_num
  split_ifs <;> simp_all <;> norm_num

lemma rim_nonneg (t : ℚ) : 0 ≤ real_in_month t :=
  pymod_nonneg _ (by rw [REAL_SEC_PER_SB_MONTH_eq]; norm_num)

lemma rim_lt (t : ℚ) : real_in_month t < 37200 := by
  have h : real_in_month t < REAL_SEC_PER_SB_MONTH := pymod_lt (real_to_sb t).real_elapsed
    (y := REAL_SEC_PER_SB_MONTH) (by rw [REAL_SEC_PER_SB_MONTH_eq]; norm_num)
  rw [REAL_SEC_PER_SB_MONTH_eq] at h
  exact h

lemma next_cult_event_cases (t : ℚ) :
    next_cult_event t =
      if real_in_month t < 7200 then 7200 - real_in_month t
      else if real_in_month t < 15600 then 15600 - real_in_month t
      else if real_in_month t < 24000 then 24000 - real_in_month t
      else if real_in_month t < 32400 then 32400 - real_in_month t
      else 37200 - real_in_month t + 7200 := by
  show (match cultBest (real_in_month t) with
    | some g => g
    | none => REAL_SEC_PER_SB_MONTH - real_in_month t + 6 * REAL_SEC_PER_SB_DAY) = _
  rw [cultBest_eval]
  split_ifs <;> simp [REAL_SEC_PER_SB_MONTH_eq, REAL_SEC_PER_SB_DAY_eq] <;> norm_num

lemma real_in_month_1560308100 : real_in_month 1560308100 = 32400 := by
  unfold real_in_month
  rw [real_to_sb_fields]
  dsimp only
  have hc : clampedElapsed 1560308100 = 32400 := by norm_num [clampedElapsed]
  have h0 : ⌊(32400 / 37200 : ℚ)⌋ = 0 := by norm_num [Int.floor_eq_iff]
  rw [hc, REAL_SEC_PER_SB_MONTH_eq]
  norm_num [pymod, h0]

/-!  Claim theorems.  -/

/-- C1: for every real-time instant, `next_cult_event` is strictly positive
and strictly below the real-second length of one SB month (37200 s); and
whenever no trigger day (zero-indexed 6, 13, 20, 27) starts strictly after
the current position within the month, the result equals the remaining real
seconds to the end of the current month plus the real-second offset of the
first trigger day. -/
theorem next_cult_event_bounds_and_wrap :
    ∀ t : ℚ,
      (0 < next_cult_event t ∧ next_cult_event t < REAL_SEC_PER_SB_MONTH) ∧
      ((∀ d ∈ event_days, (d : ℚ) * REAL_SEC_PER_SB_DAY ≤ real_in_month t) →
        next_cult_event t =
          (REAL_SEC_PER_SB_MONTH - real_in_month t) + (6 : ℚ) * REAL_SEC_PER_SB_DAY) := by
  intro t
  have h0 := rim_nonneg t
  have h1 := rim_lt t
  have hc := next_cult_event_cases t
  rw [REAL_SEC_PER_SB_MONTH_eq, REAL_SEC_PER_SB_DAY_eq]
  constructor
  · rw [hc]
    split_ifs <;> exact ⟨by linarith, by linarith⟩
  · intro hwrap
    have h27 := hwrap 27 (by norm_num [event_days])
    norm_num at h27
    rw [hc]
    split_ifs <;> linarith

/-- C1 witness: at real time 1560308100 (epoch + 32400 s, i.e. SB day 28 of
the first month) no trigger day starts strictly after the position in the
month, and the countdown takes the wrap value. -/
theorem next_cult_event_bounds_and_wrap_witness :
    (∀ d ∈ event_days, (d : ℚ) * REAL_SEC_PER_SB_DAY ≤ real_in_month 1560308100) ∧
    next_cult_event 1560308100 =
      (REAL_SEC_PER_SB_MONTH - real_in_month 1560308100) + (6 : ℚ) * REAL_SEC_PER_SB_DAY := by
  have hd : ∀ d ∈ event_days, (d : ℚ) * REAL_SEC_PER_SB_DAY ≤ real_in_month 1560308100 := by
    intro d hd
    rw [real_in_month_1560308100, REAL_SEC_PER_SB_DAY_eq]
    simp only [event_days, List.mem_cons, List.not_mem_nil, or_false] at hd
    rcases hd with h | h | h | h <;> subst h <;> norm_num
  exact ⟨hd, (next_cult_event_bounds_and_wrap 1560308100).2 hd⟩

/-- C2: every real-time instant at or before the fixed epoch 1560275700 s is
clamped by `real_to_sb` to the zero moment — month 1, day 1, hour 0, minute
0, time-of-day 0 derived seconds, and no negative component. -/
theorem real_to_sb_clamps_before_epoch :
    ∀ t : ℚ, t ≤ 1560275700 →
      real_to_sb t = { month := 1, day := 1, hour := 0, min := 0,
                       sb_seconds_elapsed := 0, sb_time_of_day := 0, real_elapsed := 0 } := by
  intro t ht
  have hc : clampedElapsed t = 0 := by
    unfold clampedElapsed
    split
    · rfl
    · next h => push_neg at h; linarith
  rw [real_to_sb_fields, hc]
  norm_num [pymod]

/-- C2 witness: the instant exactly at the epoch yields derived day 1 of
month 1 with time-of-day 0. -/
theorem real_to_sb_clamps_before_epoch_witness :
    (1560275700 : ℚ) ≤ 1560275700 ∧
    real_to_sb 1560275700 = { month := 1, day := 1, hour := 0, min := 0,
                              sb_seconds_elapsed := 0, sb_time_of_day := 0, real_elapsed := 0 } :=
  ⟨le_refl _, real_to_sb_clamps_before_epoch 1560275700 (le_refl _)⟩

/-- C3 counterexample: a poll failure on a connected tick emits nothing — in
particular it does not emit the fallback record `MOCK_TRACK` on that tick,
contrary to the claim (the connection state does transition to
disconnected). -/
theorem mopidy_poll_failure_no_fallback :
    (mopidyTick true ConnectOutcome.success MpdPollResult.err).2 = [] ∧
    Emission.trackMsg MOCK_TRACK ∉ (mopidyTick true ConnectOutcome.success MpdPollResult.err).2 := by
  constructor
  · rfl
  · simp [mopidyTick, mopidyPoll]

/-- C3 amended: on any poll failure of a connected tick the worker discards
the partial result, transitions to disconnected, emits no record that tick,
and no exception propagates (the step is a total function); the fallback
record is emitted on the following tick, when the reconnect attempt fails. -/
theorem mopidy_poll_failure_degrades_silently :
    ∀ (c : ConnectOutcome) (r : MpdPollResult),
      mopidyTick true c MpdPollResult.err = (false, []) ∧
      mopidyTick false ConnectOutcome.failure r =
        (false, [Emission.trackMsg MOCK_TRACK, Emission.playlistsMsg MOCK_PLAYLISTS]) := by
  intro c r
  exact ⟨rfl, rfl⟩

/-- C4: the fixed-length cycle countdown returns exactly the cycle length
`FREE_WILL_CYCLE_HRS * 3600` at the anchor and at every integer multiple of
the cycle length after it (wrapping exactly, never 0), and in general
returns the cycle length minus the elapsed remainder. -/
theorem free_will_cycle_boundary :
    ∀ (A : ℚ) (n : ℕ),
      free_will_remaining (A + (n : ℚ) * (FREE_WILL_CYCLE_HRS * 3600)) A =
        FREE_WILL_CYCLE_HRS * 3600 ∧
      ∀ t : ℚ, free_will_remaining t A =
        FREE_WILL_CYCLE_HRS * 3600 - pymod (t - A) (FREE_WILL_CYCLE_HRS * 3600) := by
  intro A n
  have hgen : ∀ t : ℚ, free_will_remaining t A =
      FREE_WILL_CYCLE_HRS * 3600 - pymod (t - A) (FREE_WILL_CYCLE_HRS * 3600) :=
    fun t => rfl
  refine ⟨?_, hgen⟩
  rw [hgen]
  have h : A + (n : ℚ) * (FREE_WILL_CYCLE_HRS * 3600) - A =
      (n : ℚ) * (FREE_WILL_CYCLE_HRS * 3600) := by ring
  rw [h, pymod_nat_mul]
  · ring
  · norm_num [FREE_WILL_CYCLE_HRS]

/-- C5: for every real-time instant, the moment returned by `real_to_sb` has
derived time-of-day in `[0, 86400)` derived seconds, day-of-month in
`[1, 31]`, and month at least 1. -/
theorem real_to_sb_invariants :
    ∀ t : ℚ,
      0 ≤ (real_to_sb t).sb_time_of_day ∧ (real_to_sb t).sb_time_of_day < 86400 ∧
      1 ≤ (real_to_sb t).day ∧ (real_to_sb t).day ≤ 31 ∧ 1 ≤ (real_to_sb t).month := by
  intro t
  rw [real_to_sb_fields]
  dsimp only
  have he := clampedElapsed_nonneg t
  have hs : (0 : ℚ) ≤ clampedElapsed t * 86400 / 1200 :=
    div_nonneg (mul_nonneg he (by norm_num)) (by norm_num)
  have hd : (0 : ℤ) ≤ ⌊clampedElapsed t * 86400 / 1200 / 86400⌋ :=
    Int.floor_nonneg.mpr (div_nonneg hs (by norm_num))
  refine ⟨pymod_nonneg _ (by norm_num), pymod_lt _ (by norm_num), ?_, ?_, ?_⟩
  · rw [Int.fmod_eq_emod _ (by norm_num)]
    have := Int.emod_nonneg ⌊clampedElapsed t * 86400 / 1200 / 86400⌋ (b := 31) (by norm_num)
    omega
  · rw [Int.fmod_eq_emod _ (by norm_num)]
    have := Int.emod_lt_of_pos ⌊clampedElapsed t * 86400 / 1200 / 86400⌋ (b := 31) (by norm_num)
    omega
  · rw [Int.fdiv_eq_ediv _ (by norm_num)]
    have := Int.ediv_nonneg hd (by norm_num : (0:ℤ) ≤ 31)
    omega

/-- C6: a worker whose connection attempt fails on each of `n` consecutive
ticks publishes exactly `n` fallback records over those ticks and is never
connected at any point during them: the music worker's connection flag is
false before every tick and after the last one, its emissions contain the
fallback track record exactly `n` times, and the printer worker emits
exactly the `n`-fold repetition of `MOCK_PRINTER`. -/
theorem failing_ticks_publish_fallbacks :
    ∀ n : ℕ,
      mopidyStates false (List.replicate n (ConnectOutcome.failure, MpdPollResult.err)) =
        List.replicate (n + 1) false ∧
      (mopidyTicks false (List.replicate n (ConnectOutcome.failure, MpdPollResult.err))).2.count
        (Emission.trackMsg MOCK_TRACK) = n ∧
      moonrakerTicks (List.replicate n MoonrakerPollResult.err) =
        List.replicate n MOCK_PRINTER := by
  intro n
  induction n with
  | zero => exact ⟨rfl, rfl, rfl⟩
  | succ k ih =>
    obtain ⟨ih1, ih2, ih3⟩ := ih
    refine ⟨?_, ?_, ?_⟩
    · simpa [List.replicate_succ, mopidyStates, mopidyTick, mopidyTryConnect] using ih1
    · simpa [List.replicate_succ, mopidyTicks, mopidyTick, mopidyTryConnect,
        List.count_append, List.count_cons] using ih2
    · simp [List.replicate_succ, moonrakerTicks, moonrakerPoll, ih3]

/-- C7: any music command issued while disconnected is silently dropped —
no backend request is issued, the worker state is unchanged, and a
subsequent tick (hence the next published record, including its shuffle
flag) is exactly what it would have been without the command. -/
theorem disconnected_commands_dropped :
    ∀ (cmd : MpdCmd) (out : CmdOutcome) (c : ConnectOutcome) (r : MpdPollResult),
      safeCmd false cmd out = (false, []) ∧
      cmdThenTick false cmd out c r = mopidyTick false c r := by
  intro cmd out c r
  exact ⟨rfl, rfl⟩

/-- C8: printer normalization maps an unknown/unreachable printer status to
the standby zero-value record, treats an absent sub-object of
`result.status` exactly like an empty mapping, and defaults every absent
field (`state` to standby, numeric fields to 0). -/
theorem printer_normalization_defaults :
    moonrakerPoll MoonrakerPollResult.err = MOCK_PRINTER ∧
    normalizePrinter ⟨none, none, none⟩ = MOCK_PRINTER ∧
    (∀ data : MoonrakerStatus,
      normalizePrinter data =
        normalizePrinter ⟨some (data.print_stats.getD emptyPrintStats),
          some (data.extruder.getD emptyHeater),
          some (data.heater_bed.getD emptyHeater)⟩) ∧
    (∀ pr e b, (normalizePrinter ⟨some ⟨none, pr⟩, e, b⟩).state = "standby") ∧
    (∀ s e b, (normalizePrinter ⟨some ⟨s, none⟩, e, b⟩).progress = 0) ∧
    (∀ ps tg b, (normalizePrinter ⟨ps, some ⟨none, tg⟩, b⟩).hotend_temp = 0) ∧
    (∀ ps tp b, (normalizePrinter ⟨ps, some ⟨tp, none⟩, b⟩).hotend_target = 0) ∧
    (∀ ps e tg, (normalizePrinter ⟨ps, e, some ⟨none, tg⟩⟩).bed_temp = 0) ∧
    (∀ ps e tp, (normalizePrinter ⟨ps, e, some ⟨tp, none⟩⟩).bed_target = 0) := by
  refine ⟨rfl, rfl, ?_, ?_, ?_, ?_, ?_, ?_, ?_⟩
  · intro data
    rcases data with ⟨ps, e, b⟩
    rcases ps <;> rcases e <;> rcases b <;> rfl
  all_goals intros; rfl

/-- C9: at the instant epoch + 1200 real seconds (one full derived day),
`real_to_sb` yields day 2 of month 1, hour 0, minute 0. -/
theorem real_to_sb_epoch_plus_1200 :
    (real_to_sb (1560275700 + 1200)).day = 2 ∧
    (real_to_sb (1560275700 + 1200)).month = 1 ∧
    (real_to_sb (1560275700 + 1200)).hour = 0 ∧
    (real_to_sb (1560275700 + 1200)).min = 0 := by
  have hc : clampedElapsed (1560275700 + 1200) = 1200 := by norm_num [clampedElapsed]
  rw [real_to_sb_fields, hc]
  norm_num [pymod]
  exact ⟨by decide, by decide⟩

/-- C10: the derived month is unbounded — for every natural `M` there is a
real-time instant at which `real_to_sb` returns a month exceeding `M`. -/
theorem real_to_sb_month_unbounded :
    ∀ M : ℕ, ∃ t : ℚ, (M : ℤ) < (real_to_sb t).month := by
  intro M
  refine ⟨1560275700 + 37200 * (M : ℚ), ?_⟩
  have hM : (0 : ℚ) ≤ 37200 * (M : ℚ) := by positivity
  have hc : clampedElapsed (1560275700 + 37200 * (M : ℚ)) = 37200 * (M : ℚ) := by
    unfold clampedElapsed
    split
    · next h => linarith
    · ring
  rw [real_to_sb_fields, hc]
  dsimp only
  have h1 : (37200 : ℚ) * (M : ℚ) * 86400 / 1200 / 86400 = ((31 * M : ℤ) : ℚ) := by
    push_cast
    ring
  rw [h1, Int.floor_intCast, Int.fdiv_eq_ediv _ (by norm_num),
    Int.mul_ediv_cancel_left _ (by norm_num)]
  omega

end NexusZero
